import Mathlib

/-!
Verification of the clientv3 request-dispatch layer (`clientv3/kv.go`).

The dispatcher owns a (connection, stub) pair, executes Operation
Descriptors against the current stub, classifies failures into RPC-level
errors and transport failures, and drives the read-retry / write-fail-fast
policy with connection rotation.

The embedding is sequential and trace-based: the environment supplies the
outcome of each underlying RPC attempt (`RpcOutcome`) and of each
connection-rotation request (`RotOutcome`) as lists consumed in order.
Connections, stubs and raw wire replies are abstract identifiers (`Nat`);
the stub constructor `pb.NewKVClient` is an arbitrary function parameter
`nc : Nat → Nat`.  Go's `go kv.switchRemote(err)` (fire-and-forget) is
recorded in the trace as an asynchronous-rotation count, with the caller's
state left untouched, while the synchronous rotation on the read path both
consumes a `RotOutcome` and updates the state.
-/

namespace Clientv3

/-- Operation kinds.  `kv.go` dispatches on `op.t` over `tRange`, `tPut`,
`tDeleteRange`; the spec's descriptor enum also has a Txn kind, which falls
into `do`'s `default: panic("Unknown op")` branch. -/
inductive OpType
| tRange
| tPut
| tDeleteRange
| tTxn
deriving DecidableEq, Repr

/-- Sort specification (order, target) carried by a Range descriptor. -/
structure SortSpec where
  order : Int
  target : Int
deriving DecidableEq, Repr

/-- Modelled from the spec: the Operation Descriptor struct (`op.go`, not
under src).  Fields are exactly those `kv.go` reads: `t`, `key`, `end`
(here `end_`), `limit`, `rev`, `sort`, `val`, `leaseID`.  Keys and values
are byte strings, modelled as `String`. -/
structure Op where
  t : OpType
  key : String
  end_ : String
  limit : Int
  rev : Int
  sort : Option SortSpec
  val : String
  leaseID : Int
deriving DecidableEq, Repr

/-- Modelled from the spec: `op.isWrite()` (`op.go`, not under src).  The
spec classifies Put, DeleteRange and Txn as write operations and Range as
the only read operation. -/
def Op.isWrite (op : Op) : Bool :=
  match op.t with
  | .tRange => false
  | _ => true

/-- Errors, distinguished at the value level as the spec requires: the
remote either explicitly rejected the request (RPC-level) or could not be
reached/answered (transport).  The payload is an abstract code. -/
inductive Err
| rpc (code : Nat)
| transport (code : Nat)
deriving DecidableEq, Repr

/-- Modelled from the spec: `isRPCError` (defined outside `kv.go`, not
under src) recognises exactly the RPC-level errors. -/
def isRPCError : Err → Bool
  | .rpc _ => true
  | .transport _ => false

/-- Wire `pb.RangeRequest` as built in `do`'s `tRange` arm. -/
structure RangeRequest where
  key : String
  rangeEnd : String
  limit : Int
  revision : Int
  sortOrder : Int
  sortTarget : Int
deriving DecidableEq, Repr

/-- Wire `pb.PutRequest` as built in `do`'s `tPut` arm. -/
structure PutRequest where
  key : String
  value : String
  lease : Int
deriving DecidableEq, Repr

/-- Wire `pb.DeleteRangeRequest` as built in `do`'s `tDeleteRange` arm. -/
structure DeleteRangeRequest where
  key : String
  rangeEnd : String
deriving DecidableEq, Repr

/-- Wire `pb.CompactionRequest` as built in `Compact`. -/
structure CompactionRequest where
  revision : Int
deriving DecidableEq, Repr

/-- A wire request, one variant per request shape `kv.go` builds in `do`. -/
inductive WireRequest
| range (r : RangeRequest)
| put (r : PutRequest)
| deleteRange (r : DeleteRangeRequest)
deriving DecidableEq, Repr

/-- The request-building part of `do`'s switch on `op.t` (kv.go:128-158):
each arm fills the wire request from the descriptor's fields; the `tRange`
arm sets the sort fields only when `op.sort != nil`; the default arm
panics (`none` here). -/
def buildRequest (op : Op) : Option WireRequest :=
  match op.t with
  | .tRange =>
    let r : RangeRequest :=
      { key := op.key, rangeEnd := op.end_, limit := op.limit,
        revision := op.rev, sortOrder := 0, sortTarget := 0 }
    let r :=
      match op.sort with
      | some s => { r with sortOrder := s.order, sortTarget := s.target }
      | none => r
    some (.range r)
  | .tPut => some (.put { key := op.key, value := op.val, lease := op.leaseID })
  | .tDeleteRange => some (.deleteRange { key := op.key, rangeEnd := op.end_ })
  | .tTxn => none

/-- `pb.ResponseUnion`: the tagged union `do` wraps a successful raw reply
into; raw replies are abstract identifiers. -/
inductive ResponseUnion
| responseRange (resp : Nat)
| responsePut (resp : Nat)
| responseDeleteRange (resp : Nat)
deriving DecidableEq, Repr

/-- Which union variant `do` wraps a success into, per operation kind
(the `tTxn` arm is unreachable: `buildRequest` already panicked). -/
def wrapResponse (t : OpType) (resp : Nat) : ResponseUnion :=
  match t with
  | .tRange => .responseRange resp
  | .tPut => .responsePut resp
  | .tDeleteRange => .responseDeleteRange resp
  | .tTxn => .responseRange resp

/-- Dispatcher state: the `conn` and `remote` fields of `kv` (kv.go:60-65),
guarded in the source by `kv.mu`. -/
structure KVState where
  conn : Nat
  remote : Nat
deriving DecidableEq, Repr

/-- `(kv *kv) getRemote` (kv.go:193-196): locked read of the stub. -/
def getRemote (st : KVState) : Nat :=
  st.remote

/-- Environment-supplied outcome of one underlying RPC attempt. -/
inductive RpcOutcome
| ok (resp : Nat)
| fail (e : Err)
deriving DecidableEq, Repr

/-- Environment-supplied outcome of one `retryConnection` request to the
connection-pool collaborator. -/
inductive RotOutcome
| ok (newConn : Nat)
| fail (e : Err)
deriving DecidableEq, Repr

/-- `(kv *kv) switchRemote` (kv.go:179-191): ask the pool collaborator for
a replacement connection (outcome supplied by the environment); on failure
return the error with the state untouched; on success install the new
connection and the stub freshly bound to it, both together. -/
def switchRemote (nc : Nat → Nat) (st : KVState) (rot : RotOutcome) :
    Option Err × KVState :=
  match rot with
  | .fail e => (some e, st)
  | .ok newConn => (none, { conn := newConn, remote := nc newConn })

/-- Instrumentation: which exit of `do`'s loop produced the returned
error. -/
inductive ErrOrigin
| rpcLevel
| writeTransport
| rotationFailure
deriving DecidableEq, Repr

/-- Observable outcome of a `do` call.  `panicked` is the
`panic("Unknown op")` default branch; `exhausted` means the supplied
environment trace ran out before the loop exited (the loop itself is
unbounded). -/
inductive DoOutcome
| ok (resp : ResponseUnion)
| err (origin : ErrOrigin) (e : Err)
| panicked
| exhausted
deriving DecidableEq, Repr

/-- Trace of one `do` call: the (stub, wire request) of each underlying RPC
attempt in order, the number of fire-and-forget rotations spawned
(`go kv.switchRemote`), and the number of rotations synchronously awaited. -/
structure DoTrace where
  attempts : List (Nat × WireRequest)
  asyncRotations : Nat
  syncRotations : Nat
deriving DecidableEq, Repr

/-- `(kv *kv) do` (kv.go:126-176).  Each iteration: build the wire request
for `op.t` (default arm panics), read the current stub via `getRemote`,
make the RPC (outcome from the head of `rpcs`); on success wrap and return;
on an RPC-level error return it; otherwise, for a write op spawn an
asynchronous rotation and return the transport error, and for a read op
synchronously rotate (outcome from the head of `rots`), returning the
rotation error if rotation fails and looping with the new state if it
succeeds. -/
def doLoop (nc : Nat → Nat) (op : Op) (st : KVState)
    (rpcs : List RpcOutcome) (rots : List RotOutcome) :
    DoOutcome × KVState × DoTrace :=
  match buildRequest op with
  | none => (.panicked, st, ⟨[], 0, 0⟩)
  | some req =>
    match rpcs with
    | [] => (.exhausted, st, ⟨[], 0, 0⟩)
    | o :: rpcs1 =>
      let stub := getRemote st
      match o with
      | .ok resp => (.ok (wrapResponse op.t resp), st, ⟨[(stub, req)], 0, 0⟩)
      | .fail e =>
        if isRPCError e then
          (.err .rpcLevel e, st, ⟨[(stub, req)], 0, 0⟩)
        else if op.isWrite then
          (.err .writeTransport e, st, ⟨[(stub, req)], 1, 0⟩)
        else
          match rots with
          | [] => (.exhausted, st, ⟨[(stub, req)], 0, 0⟩)
          | r :: rots1 =>
            match switchRemote nc st r with
            | (some re, _) => (.err .rotationFailure re, st, ⟨[(stub, req)], 0, 1⟩)
            | (none, st1) =>
              let res := doLoop nc op st1 rpcs1 rots1
              (res.1, res.2.1,
                ⟨(stub, req) :: res.2.2.attempts, res.2.2.asyncRotations,
                  res.2.2.syncRotations + 1⟩)

/-- Option descriptors.  Modelled from the spec: the option combinators
(`op.go`, not under src) are pure mutators, each owning the fields it
sets. -/
inductive OpOption
| withRange (end_ : String)
| withRev (rev : Int)
| withLimit (limit : Int)
| withSort (order target : Int)
| withLease (id : Int)
deriving DecidableEq, Repr

/-- Modelled from the spec: applying one option mutates only the fields it
owns. -/
def applyOpt (o : Op) : OpOption → Op
  | .withRange e => { o with end_ := e }
  | .withRev r => { o with rev := r }
  | .withLimit l => { o with limit := l }
  | .withSort ord tgt => { o with sort := some ⟨ord, tgt⟩ }
  | .withLease i => { o with leaseID := i }

/-- Modelled from the spec: `OpGet` (`op.go`, not under src) builds a Range
descriptor from the key and the options applied in order over the
documented defaults (single key, current revision, no limit, no sort). -/
def OpGet (key : String) (opts : List OpOption) : Op :=
  opts.foldl applyOpt
    { t := .tRange, key := key, end_ := "", limit := 0, rev := 0,
      sort := none, val := "", leaseID := 0 }

/-- Modelled from the spec: `OpPut` (`op.go`, not under src). -/
def OpPut (key val : String) (opts : List OpOption) : Op :=
  opts.foldl applyOpt
    { t := .tPut, key := key, end_ := "", limit := 0, rev := 0,
      sort := none, val := val, leaseID := 0 }

/-- Modelled from the spec: `OpDelete` (`op.go`, not under src). -/
def OpDelete (key : String) (opts : List OpOption) : Op :=
  opts.foldl applyOpt
    { t := .tDeleteRange, key := key, end_ := "", limit := 0, rev := 0,
      sort := none, val := "", leaseID := 0 }

/-- `r.GetResponsePut()`: the generated union accessor, `nil` (`none`) when
the stored variant differs. -/
def GetResponsePut : ResponseUnion → Option Nat
  | .responsePut r => some r
  | _ => none

/-- `r.GetResponseRange()`. -/
def GetResponseRange : ResponseUnion → Option Nat
  | .responseRange r => some r
  | _ => none

/-- `r.GetResponseDeleteRange()`. -/
def GetResponseDeleteRange : ResponseUnion → Option Nat
  | .responseDeleteRange r => some r
  | _ => none

/-- `(kv *kv) Put` (kv.go:79-85): run `do` on a Put descriptor; on error
return (nil, err), else unwrap the Put variant.  `none` overall means the
call did not return in the model (panic or exhausted trace). -/
def Put (nc : Nat → Nat) (key val : String) (opts : List OpOption)
    (st : KVState) (rpcs : List RpcOutcome) (rots : List RotOutcome) :
    Option (Option Nat × Option Err) :=
  match doLoop nc (OpPut key val opts) st rpcs rots with
  | (.ok r, _, _) => some (GetResponsePut r, none)
  | (.err _ e, _, _) => some (none, some e)
  | (.panicked, _, _) => none
  | (.exhausted, _, _) => none

/-- `(kv *kv) Get` (kv.go:87-93). -/
def Get (nc : Nat → Nat) (key : String) (opts : List OpOption)
    (st : KVState) (rpcs : List RpcOutcome) (rots : List RotOutcome) :
    Option (Option Nat × Option Err) :=
  match doLoop nc (OpGet key opts) st rpcs rots with
  | (.ok r, _, _) => some (GetResponseRange r, none)
  | (.err _ e, _, _) => some (none, some e)
  | (.panicked, _, _) => none
  | (.exhausted, _, _) => none

/-- `(kv *kv) Delete` (kv.go:95-101). -/
def Delete (nc : Nat → Nat) (key : String) (opts : List OpOption)
    (st : KVState) (rpcs : List RpcOutcome) (rots : List RotOutcome) :
    Option (Option Nat × Option Err) :=
  match doLoop nc (OpDelete key opts) st rpcs rots with
  | (.ok r, _, _) => some (GetResponseDeleteRange r, none)
  | (.err _ e, _, _) => some (none, some e)
  | (.panicked, _, _) => none
  | (.exhausted, _, _) => none

/-- Result of one `Compact` call: the wire request sent, the stub used, the
returned error (`none` on success) and the number of fire-and-forget
rotations spawned.  The dispatcher state is not part of the result because
`Compact` never mutates it before returning. -/
structure CompactResult where
  request : CompactionRequest
  stub : Nat
  result : Option Err
  asyncRotations : Nat
deriving DecidableEq, Repr

/-- `(kv *kv) Compact` (kv.go:103-116): build the compaction request with
the given revision, call the stub; on success return nil; return an
RPC-level error as-is; on a transport failure spawn an asynchronous
rotation and return the error. -/
def Compact (rev : Int) (st : KVState) (o : RpcOutcome) : CompactResult :=
  let r : CompactionRequest := { revision := rev }
  let stub := getRemote st
  match o with
  | .ok _ => { request := r, stub := stub, result := none, asyncRotations := 0 }
  | .fail e =>
    if isRPCError e then
      { request := r, stub := stub, result := some e, asyncRotations := 0 }
    else
      { request := r, stub := stub, result := some e, asyncRotations := 1 }

/-- Modelled from the spec: the top-level client (`client.go`, not under
src) exposes `ActiveConnection`, here a function of the client state. -/
structure Client where
  activeConn : Nat
deriving DecidableEq, Repr

/-- Modelled from the spec: `c.ActiveConnection()`. -/
def ActiveConnection (c : Client) : Nat :=
  c.activeConn

/-- `NewKV` (kv.go:67-77): the source calls `c.ActiveConnection()` once to
build the stub and a second time to fill the `conn` field; with a
deterministic `ActiveConnection` both calls agree. -/
def NewKV (nc : Nat → Nat) (c : Client) : KVState :=
  let conn := ActiveConnection c
  let remote := nc conn
  { conn := ActiveConnection c, remote := remote }

/-- The pair invariant: the stored stub is the one bound to the stored
connection. -/
def paired (nc : Nat → Nat) (st : KVState) : Prop :=
  st.remote = nc st.conn

/-- Kinds of accesses to the shared (conn, remote) pair, plus calls out to
collaborators, for the lock-discipline model. -/
inductive Access
| readConn
| writeConn
| readRemote
| writeRemote
| rpcCall
| poolCall
deriving DecidableEq, Repr

/-- One access event and whether `kv.mu` is held when it happens. -/
structure Event where
  acc : Access
  locked : Bool
deriving DecidableEq, Repr

/-- Access events of `getRemote` (kv.go:193-196): `kv.remote` is read
between `kv.mu.Lock()` and the deferred `Unlock`. -/
def getRemoteEvents : List Event :=
  [⟨.readRemote, true⟩]

/-- Access events of `switchRemote` (kv.go:179-191), by whether the pool
collaborator succeeds: `kv.conn` is read as the argument of
`kv.c.retryConnection(kv.conn, prevErr)` before `kv.mu.Lock()` is reached;
on success, under the lock, `kv.conn` is written, read again by
`pb.NewKVClient(kv.conn)`, and `kv.remote` is written. -/
def switchRemoteEvents (rotOk : Bool) : List Event :=
  [⟨.readConn, false⟩, ⟨.poolCall, false⟩] ++
    (if rotOk then
      [⟨.writeConn, true⟩, ⟨.readConn, true⟩, ⟨.writeRemote, true⟩]
    else [])

/-- Access events of one RPC attempt in `do`: the locked stub read inside
`getRemote`, then the RPC call itself with the lock released. -/
def doAttemptEvents : List Event :=
  [⟨.readRemote, true⟩, ⟨.rpcCall, false⟩]

/-- Whether an event writes a field of the shared pair. -/
def Event.isPairWrite : Event → Bool
  | ⟨.writeConn, _⟩ => true
  | ⟨.writeRemote, _⟩ => true
  | _ => false

/-- Whether an event reads a field of the shared pair. -/
def Event.isPairRead : Event → Bool
  | ⟨.readConn, _⟩ => true
  | ⟨.readRemote, _⟩ => true
  | _ => false

/-- Whether an event is a blocking call to a collaborator (network I/O). -/
def Event.isExternalCall : Event → Bool
  | ⟨.rpcCall, _⟩ => true
  | ⟨.poolCall, _⟩ => true
  | _ => false

/-! ## Theorems -/

/-- Applying one option never changes the descriptor's kind. -/
theorem applyOpt_t (o : Op) (opt : OpOption) : (applyOpt o opt).t = o.t := by
  cases opt <;> rfl

/-- Applying a list of options never changes the descriptor's kind. -/
theorem foldl_applyOpt_t (opts : List OpOption) :
    ∀ o : Op, (opts.foldl applyOpt o).t = o.t := by
  induction opts with
  | nil => intro o; rfl
  | cons a opts ih => intro o; rw [List.foldl_cons, ih, applyOpt_t]

/-- `OpPut` always yields a Put descriptor. -/
theorem opPut_t (key val : String) (opts : List OpOption) :
    (OpPut key val opts).t = .tPut :=
  foldl_applyOpt_t opts _

/-- `OpGet` always yields a Range descriptor. -/
theorem opGet_t (key : String) (opts : List OpOption) :
    (OpGet key opts).t = .tRange :=
  foldl_applyOpt_t opts _

/-- `OpDelete` always yields a DeleteRange descriptor. -/
theorem opDelete_t (key : String) (opts : List OpOption) :
    (OpDelete key opts).t = .tDeleteRange :=
  foldl_applyOpt_t opts _

/-- Whenever `do` succeeds, the returned union is the variant produced by
`wrapResponse` at the descriptor's kind. -/
theorem doLoop_ok_shape (nc : Nat → Nat) (op : Op) :
    ∀ (rpcs : List RpcOutcome) (st : KVState) (rots : List RotOutcome)
      (u : ResponseUnion), (doLoop nc op st rpcs rots).1 = .ok u →
      ∃ p, u = wrapResponse op.t p := by
  intro rpcs
  induction rpcs with
  | nil =>
    intro st rots u hu
    unfold doLoop at hu
    cases hb : buildRequest op <;> rw [hb] at hu <;> simp at hu
  | cons o rpcs1 ih =>
    intro st rots u hu
    unfold doLoop at hu
    cases hb : buildRequest op <;> rw [hb] at hu
    · simp at hu
    · cases o with
      | ok resp =>
        simp at hu
        exact ⟨resp, hu.symm⟩
      | fail e0 =>
        cases e0 with
        | rpc code => simp [isRPCError] at hu
        | transport code =>
          cases hw : op.isWrite
          · cases rots with
            | nil => simp [isRPCError, hw] at hu
            | cons rr rots1 =>
              cases rr with
              | ok c2 =>
                simp [isRPCError, hw, switchRemote] at hu
                exact ih _ _ u hu
              | fail re => simp [isRPCError, hw, switchRemote] at hu
          · simp [isRPCError, hw] at hu

/-- A Range call through `do` can only exit with a success, an RPC-level
error or a rotation failure: it never panics and never takes the
write-path exit. -/
theorem range_exits_aux (nc : Nat → Nat) (key end_ val : String)
    (limit rev leaseID : Int) (sort : Option SortSpec) :
    ∀ (rpcs : List RpcOutcome) (st : KVState) (rots : List RotOutcome),
      (doLoop nc ⟨.tRange, key, end_, limit, rev, sort, val, leaseID⟩ st
          rpcs rots).1 ≠ .panicked ∧
      ∀ e, (doLoop nc ⟨.tRange, key, end_, limit, rev, sort, val, leaseID⟩ st
          rpcs rots).1 ≠ .err .writeTransport e := by
  intro rpcs
  induction rpcs with
  | nil =>
    intro st rots
    exact ⟨(fun h => nomatch h), (fun e h => nomatch h)⟩
  | cons o rpcs1 ih =>
    intro st rots
    cases o with
    | ok resp => exact ⟨(fun h => nomatch h), (fun e h => nomatch h)⟩
    | fail e0 =>
      cases e0 with
      | rpc code => exact ⟨(fun h => nomatch h), (fun e h => nomatch h)⟩
      | transport code =>
        cases rots with
        | nil => exact ⟨(fun h => nomatch h), (fun e h => nomatch h)⟩
        | cons rr rots1 =>
          cases rr with
          | ok c2 => exact ⟨(ih ⟨c2, nc c2⟩ rots1).1, (ih ⟨c2, nc c2⟩ rots1).2⟩
          | fail re => exact ⟨(fun h => nomatch h), (fun e h => nomatch h)⟩

/-- A Range call through `do` retries as often as the environment supplies
transport failures with successful rotations: after `n` such rounds and one
final success it returns the success, having made `n + 1` RPC attempts. -/
theorem range_unbounded_aux (nc : Nat → Nat) (key end_ val : String)
    (limit rev leaseID : Int) (sort : Option SortSpec) (code resp c2 : Nat) :
    ∀ (n : Nat) (st : KVState),
      (doLoop nc ⟨.tRange, key, end_, limit, rev, sort, val, leaseID⟩ st
          (List.replicate n (.fail (.transport code)) ++ [.ok resp])
          (List.replicate n (.ok c2))).1 = .ok (.responseRange resp) ∧
      (doLoop nc ⟨.tRange, key, end_, limit, rev, sort, val, leaseID⟩ st
          (List.replicate n (.fail (.transport code)) ++ [.ok resp])
          (List.replicate n (.ok c2))).2.2.attempts.length = n + 1 := by
  intro n
  induction n with
  | zero => intro st; exact ⟨rfl, rfl⟩
  | succ n ih =>
    intro st
    rw [List.replicate_succ, List.cons_append, List.replicate_succ]
    refine ⟨(ih ⟨c2, nc c2⟩).1, ?_⟩
    show (doLoop nc ⟨.tRange, key, end_, limit, rev, sort, val, leaseID⟩
        ⟨c2, nc c2⟩ (List.replicate n (.fail (.transport code)) ++ [.ok resp])
        (List.replicate n (.ok c2))).2.2.attempts.length + 1 = n + 1 + 1
    rw [(ih ⟨c2, nc c2⟩).2]

/-- C1: for a write descriptor (Put or DeleteRange), a transport failure on
the RPC attempt makes `do` return that transport error at once: exactly one
underlying RPC attempt is made (whatever further outcomes the environment
would have supplied), one fire-and-forget rotation is spawned, no rotation
is awaited, and the dispatcher state the caller sees is unchanged. -/
theorem write_transport_fail_fast (nc : Nat → Nat) (key end_ val : String)
    (limit rev leaseID : Int) (sort : Option SortSpec) (st : KVState)
    (code : Nat) (rpcs : List RpcOutcome) (rots : List RotOutcome) :
    doLoop nc ⟨.tPut, key, end_, limit, rev, sort, val, leaseID⟩ st
        (.fail (.transport code) :: rpcs) rots =
      (.err .writeTransport (.transport code), st,
        ⟨[(st.remote, .put ⟨key, val, leaseID⟩)], 1, 0⟩) ∧
    doLoop nc ⟨.tDeleteRange, key, end_, limit, rev, sort, val, leaseID⟩ st
        (.fail (.transport code) :: rpcs) rots =
      (.err .writeTransport (.transport code), st,
        ⟨[(st.remote, .deleteRange ⟨key, end_⟩)], 1, 0⟩) :=
  ⟨rfl, rfl⟩

/-- C2: an RPC-level error is returned to the caller unchanged for every
operation kind `do` handles (Range, Put, DeleteRange) and for Compact, with
exactly one underlying RPC attempt and no rotation of any sort. -/
theorem rpc_error_single_attempt (nc : Nat → Nat) (op : Op) (st : KVState)
    (code : Nat) (rev : Int) (req : WireRequest)
    (rpcs : List RpcOutcome) (rots : List RotOutcome)
    (h : buildRequest op = some req) :
    doLoop nc op st (.fail (.rpc code) :: rpcs) rots =
      (.err .rpcLevel (.rpc code), st, ⟨[(st.remote, req)], 0, 0⟩) ∧
    Compact rev st (.fail (.rpc code)) =
      ⟨⟨rev⟩, st.remote, some (.rpc code), 0⟩ := by
  constructor
  · unfold doLoop
    rw [h]
    rfl
  · rfl

/-- C2 witness: concrete run of the theorem at a Range descriptor. -/
theorem rpc_error_single_attempt_witness :
    doLoop (fun c => c) ⟨.tRange, "a", "", 0, 0, none, "", 0⟩ ⟨3, 3⟩
        [.fail (.rpc 9)] [] =
      (.err .rpcLevel (.rpc 9), ⟨3, 3⟩,
        ⟨[(3, .range ⟨"a", "", 0, 0, 0, 0⟩)], 0, 0⟩) ∧
    Compact 5 ⟨3, 3⟩ (.fail (.rpc 9)) = ⟨⟨5⟩, 3, some (.rpc 9), 0⟩ :=
  rpc_error_single_attempt (fun c => c) ⟨.tRange, "a", "", 0, 0, none, "", 0⟩
    ⟨3, 3⟩ 9 5 (.range ⟨"a", "", 0, 0, 0, 0⟩) [] [] rfl

/-- C6: the wire request built by `do` carries exactly the descriptor's
fields: for Range, key/rangeEnd/limit/revision from the descriptor and the
sort fields zero when no sort spec is present and copied from it when it
is; for Put, key/value/lease; for DeleteRange, key/rangeEnd. -/
theorem wire_request_fields (key end_ val : String)
    (limit rev leaseID : Int) (sort : Option SortSpec) :
    buildRequest ⟨.tRange, key, end_, limit, rev, none, val, leaseID⟩ =
      some (.range ⟨key, end_, limit, rev, 0, 0⟩) ∧
    (∀ s : SortSpec,
      buildRequest ⟨.tRange, key, end_, limit, rev, some s, val, leaseID⟩ =
        some (.range ⟨key, end_, limit, rev, s.order, s.target⟩)) ∧
    buildRequest ⟨.tPut, key, end_, limit, rev, sort, val, leaseID⟩ =
      some (.put ⟨key, val, leaseID⟩) ∧
    buildRequest ⟨.tDeleteRange, key, end_, limit, rev, sort, val, leaseID⟩ =
      some (.deleteRange ⟨key, end_⟩) :=
  ⟨rfl, fun _ => rfl, rfl, rfl⟩

/-- C7: `switchRemote` on a pool failure returns that failure and leaves
both stored fields unchanged; on success it returns no error and installs
the new connection together with the stub freshly bound to it. -/
theorem switchRemote_replaces_pair (nc : Nat → Nat) (st : KVState)
    (e : Err) (c : Nat) :
    switchRemote nc st (.fail e) = (some e, st) ∧
    switchRemote nc st (.ok c) = (none, ⟨c, nc c⟩) :=
  ⟨rfl, rfl⟩

/-- C8: `Compact` sends a compaction request whose revision is the given
one and: on success returns nil with no rotation; returns an RPC-level
error as-is with no rotation; on a transport failure spawns one
asynchronous (not awaited) rotation and returns the transport error. -/
theorem compact_policy (rev : Int) (st : KVState) (resp code : Nat) :
    Compact rev st (.ok resp) = ⟨⟨rev⟩, st.remote, none, 0⟩ ∧
    Compact rev st (.fail (.rpc code)) =
      ⟨⟨rev⟩, st.remote, some (.rpc code), 0⟩ ∧
    Compact rev st (.fail (.transport code)) =
      ⟨⟨rev⟩, st.remote, some (.transport code), 1⟩ :=
  ⟨rfl, rfl, rfl⟩

/-- C9: `NewKV` establishes the pair invariant: for every client state, the
returned dispatcher's stub is the RPC client built from the very
connection stored in its `conn` field. -/
theorem newKV_establishes_pair (nc : Nat → Nat) (c : Client) :
    paired nc (NewKV nc c) :=
  rfl

/-- C4 counterexample: in `switchRemote` the stored connection handle is
read as the argument of `kv.c.retryConnection(kv.conn, prevErr)` before
`kv.mu.Lock()` is reached, so not every read of the shared pair goes
through the mutex. -/
theorem pair_access_unlocked_read :
    ((switchRemoteEvents true).filter Event.isPairRead).all
        (fun ev => ev.locked) = false :=
  rfl

/-- C4 amended: every installed pair binds the stub to the stored
connection, so a reader of the stub observes the stub bound to the
connection that was current at acquisition (never a torn pair); both
writes of the pair and `getRemote`'s read happen under the mutex, and no
collaborator call (RPC or pool) happens while the lock is held; however
`switchRemote` reads the stored connection handle outside the lock when
passing it to the pool collaborator. -/
theorem pair_never_torn_lock_discipline (nc : Nat → Nat) (cl : Client)
    (st : KVState) (e : Err) (c c2 : Nat) :
    paired nc (NewKV nc cl) ∧
    (switchRemote nc st (.ok c2)).2 = ⟨c2, nc c2⟩ ∧
    paired nc (switchRemote nc st (.ok c2)).2 ∧
    (switchRemote nc st (.fail e)).2 = st ∧
    getRemote ⟨c, nc c⟩ = nc c ∧
    getRemoteEvents.all (fun ev => ev.locked) = true ∧
    ((switchRemoteEvents true).filter Event.isPairWrite).all
        (fun ev => ev.locked) = true ∧
    ((switchRemoteEvents false).filter Event.isPairWrite).all
        (fun ev => ev.locked) = true ∧
    ((switchRemoteEvents true).filter Event.isExternalCall).all
        (fun ev => !ev.locked) = true ∧
    ((switchRemoteEvents false).filter Event.isExternalCall).all
        (fun ev => !ev.locked) = true ∧
    (doAttemptEvents.filter Event.isExternalCall).all
        (fun ev => !ev.locked) = true ∧
    (switchRemoteEvents true).filter
        (fun ev => ev.isPairRead && !ev.locked) = [⟨.readConn, false⟩] :=
  ⟨rfl, rfl, rfl, rfl, rfl, rfl, rfl, rfl, rfl, rfl, rfl, rfl⟩

/-- C5 (failing-input evaluation): a descriptor of kind Txn, as a
transaction commit would produce, drives `do` into the
`panic("Unknown op")` default branch before any RPC attempt is made,
instead of being encoded and dispatched. -/
theorem txn_descriptor_hits_panic :
    (doLoop (fun c => c) ⟨.tTxn, "k", "", 0, 0, none, "v", 0⟩ ⟨0, 0⟩
        [.ok 1] []).1 = .panicked ∧
    (doLoop (fun c => c) ⟨.tTxn, "k", "", 0, 0, none, "v", 0⟩ ⟨0, 0⟩
        [.ok 1] []).2.2.attempts = [] :=
  ⟨rfl, rfl⟩

/-- C3: for a Range descriptor the retry loop exits only on success (the
wrapped Range response is returned), on an RPC-level error (returned
as-is), or on a rotation failure (the rotation error is returned); it
never panics and never takes the write-path exit; a transport failure
followed by a successful rotation loops back and re-attempts with the stub
bound to the new connection; and there is no bound on the number of
retries: for every n the environment can force n + 1 attempts. -/
theorem range_retry_loop (nc : Nat → Nat) (key end_ val : String)
    (limit rev leaseID : Int) (sort : Option SortSpec) (st : KVState)
    (resp code c2 : Nat) (re : Err)
    (rpcs : List RpcOutcome) (rots : List RotOutcome) :
    (doLoop nc ⟨.tRange, key, end_, limit, rev, sort, val, leaseID⟩ st
        (.ok resp :: rpcs) rots).1 = .ok (.responseRange resp) ∧
    (doLoop nc ⟨.tRange, key, end_, limit, rev, sort, val, leaseID⟩ st
        (.fail (.rpc code) :: rpcs) rots).1 = .err .rpcLevel (.rpc code) ∧
    (doLoop nc ⟨.tRange, key, end_, limit, rev, sort, val, leaseID⟩ st
        (.fail (.transport code) :: rpcs) (.fail re :: rots)).1 =
      .err .rotationFailure re ∧
    (doLoop nc ⟨.tRange, key, end_, limit, rev, sort, val, leaseID⟩ st
        (.fail (.transport code) :: rpcs) (.ok c2 :: rots)).1 =
      (doLoop nc ⟨.tRange, key, end_, limit, rev, sort, val, leaseID⟩
        ⟨c2, nc c2⟩ rpcs rots).1 ∧
    (doLoop nc ⟨.tRange, key, end_, limit, rev, sort, val, leaseID⟩ st
        (.fail (.transport code) :: rpcs) (.ok c2 :: rots)).2.1 =
      (doLoop nc ⟨.tRange, key, end_, limit, rev, sort, val, leaseID⟩
        ⟨c2, nc c2⟩ rpcs rots).2.1 ∧
    (doLoop nc ⟨.tRange, key, end_, limit, rev, sort, val, leaseID⟩ st
        (.fail (.transport code) :: rpcs)
        (.ok c2 :: rots)).2.2.attempts.length =
      (doLoop nc ⟨.tRange, key, end_, limit, rev, sort, val, leaseID⟩
        ⟨c2, nc c2⟩ rpcs rots).2.2.attempts.length + 1 ∧
    (∀ (rpcs2 : List RpcOutcome) (st2 : KVState) (rots2 : List RotOutcome),
      (doLoop nc ⟨.tRange, key, end_, limit, rev, sort, val, leaseID⟩ st2
          rpcs2 rots2).1 ≠ .panicked ∧
      ∀ e, (doLoop nc ⟨.tRange, key, end_, limit, rev, sort, val, leaseID⟩
          st2 rpcs2 rots2).1 ≠ .err .writeTransport e) ∧
    (∀ n : Nat,
      (doLoop nc ⟨.tRange, key, end_, limit, rev, sort, val, leaseID⟩ st
          (List.replicate n (.fail (.transport code)) ++ [.ok resp])
          (List.replicate n (.ok c2))).1 = .ok (.responseRange resp) ∧
      (doLoop nc ⟨.tRange, key, end_, limit, rev, sort, val, leaseID⟩ st
          (List.replicate n (.fail (.transport code)) ++ [.ok resp])
          (List.replicate n (.ok c2))).2.2.attempts.length = n + 1) :=
  ⟨rfl, rfl, rfl, rfl, rfl, rfl,
    (fun rpcs2 st2 rots2 =>
      range_exits_aux nc key end_ val limit rev leaseID sort rpcs2 st2 rots2),
    (fun n =>
      range_unbounded_aux nc key end_ val limit rev leaseID sort
        code resp c2 n st)⟩

/-- C3 witness: a concrete run with one transport failure, one successful
rotation and a success on the new stub: two attempts, success returned. -/
theorem range_retry_loop_witness :
    (doLoop (fun c => c) ⟨.tRange, "a", "z", 0, 0, none, "", 0⟩ ⟨1, 1⟩
        (List.replicate 1 (.fail (.transport 4)) ++ [.ok 7])
        (List.replicate 1 (.ok 2))).1 = .ok (.responseRange 7) ∧
    (doLoop (fun c => c) ⟨.tRange, "a", "z", 0, 0, none, "", 0⟩ ⟨1, 1⟩
        (List.replicate 1 (.fail (.transport 4)) ++ [.ok 7])
        (List.replicate 1 (.ok 2))).2.2.attempts.length = 1 + 1 :=
  (range_retry_loop (fun c => c) "a" "z" "" 0 0 0 none ⟨1, 1⟩ 7 4 2
      (.rpc 0) [] []).2.2.2.2.2.2.2 1

/-- C10: each of Put, Get, Delete returns exactly one non-nil result: on
any error from the dispatch loop the typed response is nil and the error
is returned; on success the error is nil and the response is the payload
of the union variant matching the originating operation kind. -/
theorem typed_response_exclusive (nc : Nat → Nat) (key val : String)
    (opts : List OpOption) (st : KVState)
    (rpcs : List RpcOutcome) (rots : List RotOutcome) :
    (∀ r, Put nc key val opts st rpcs rots = some r →
      (∃ p, r = (some p, none) ∧
        (doLoop nc (OpPut key val opts) st rpcs rots).1 =
          .ok (.responsePut p)) ∨
      (∃ e, r = (none, some e))) ∧
    (∀ r, Get nc key opts st rpcs rots = some r →
      (∃ p, r = (some p, none) ∧
        (doLoop nc (OpGet key opts) st rpcs rots).1 =
          .ok (.responseRange p)) ∨
      (∃ e, r = (none, some e))) ∧
    (∀ r, Delete nc key opts st rpcs rots = some r →
      (∃ p, r = (some p, none) ∧
        (doLoop nc (OpDelete key opts) st rpcs rots).1 =
          .ok (.responseDeleteRange p)) ∨
      (∃ e, r = (none, some e))) := by
  refine ⟨?_, ?_, ?_⟩
  · intro r hr
    unfold Put at hr
    rcases hd : doLoop nc (OpPut key val opts) st rpcs rots with ⟨out, st2, tr⟩
    rw [hd] at hr
    cases out with
    | ok u =>
      obtain ⟨p, hp⟩ :=
        doLoop_ok_shape nc (OpPut key val opts) rpcs st rots u (by rw [hd])
      rw [opPut_t] at hp
      simp only [wrapResponse] at hp
      subst hp
      left
      refine ⟨p, ?_, rfl⟩
      simp only [GetResponsePut] at hr
      exact (Option.some.inj hr).symm
    | err orig e =>
      right
      exact ⟨e, (Option.some.inj hr).symm⟩
    | panicked => cases hr
    | exhausted => cases hr
  · intro r hr
    unfold Get at hr
    rcases hd : doLoop nc (OpGet key opts) st rpcs rots with ⟨out, st2, tr⟩
    rw [hd] at hr
    cases out with
    | ok u =>
      obtain ⟨p, hp⟩ :=
        doLoop_ok_shape nc (OpGet key opts) rpcs st rots u (by rw [hd])
      rw [opGet_t] at hp
      simp only [wrapResponse] at hp
      subst hp
      left
      refine ⟨p, ?_, rfl⟩
      simp only [GetResponseRange] at hr
      exact (Option.some.inj hr).symm
    | err orig e =>
      right
      exact ⟨e, (Option.some.inj hr).symm⟩
    | panicked => cases hr
    | exhausted => cases hr
  · intro r hr
    unfold Delete at hr
    rcases hd : doLoop nc (OpDelete key opts) st rpcs rots with ⟨out, st2, tr⟩
    rw [hd] at hr
    cases out with
    | ok u =>
      obtain ⟨p, hp⟩ :=
        doLoop_ok_shape nc (OpDelete key opts) rpcs st rots u (by rw [hd])
      rw [opDelete_t] at hp
      simp only [wrapResponse] at hp
      subst hp
      left
      refine ⟨p, ?_, rfl⟩
      simp only [GetResponseDeleteRange] at hr
      exact (Option.some.inj hr).symm
    | err orig e =>
      right
      exact ⟨e, (Option.some.inj hr).symm⟩
    | panicked => cases hr
    | exhausted => cases hr

/-- C10 witness: a successful concrete Put call returns the Put payload
with a nil error. -/
theorem typed_response_exclusive_witness :
    (∃ p, ((some 7 : Option Nat), (none : Option Err)) = (some p, none) ∧
      (doLoop (fun c => c) (OpPut "k" "v" []) ⟨0, 0⟩ [.ok 7] []).1 =
        .ok (.responsePut p)) ∨
    (∃ e, ((some 7 : Option Nat), (none : Option Err)) = (none, some e)) :=
  (typed_response_exclusive (fun c => c) "k" "v" [] ⟨0, 0⟩ [.ok 7] []).1
    (some 7, none) rfl

end Clientv3
